import Mathlib

/-!
Shallow embedding of the request-normalization, upstream-call and
response-adaptation logic of the image-generation proxy (src/main.ts and
the revision variants in src/unnamed/part_001, part_002, part_005).

The source is TypeScript running on Deno.  The embedding renders:
  * JS strings as Lean `String` (an absent text field is modelled as the
    empty string where the code only tests truthiness, and as
    `Option String` where presence matters);
  * JS `null`/`undefined` values as `Option`;
  * JS string truthiness (`""` is falsy) as an explicit `== ""` test;
  * the async handler as two pure phases: a normalization phase that
    either rejects the request with an HTTP status or produces the
    upstream call, and a response phase that maps the upstream reply to
    the outbound chunks.  Producing `callUpstream` is exactly "the
    upstream generation API is contacted".
-/

/-- Boolean list-prefix test (the embedding's primitive for JS
`startsWith` and for the anchored part of the data-URL regex). -/
def listPrefix : List Char → List Char → Bool
  | [], _ => true
  | _ :: _, [] => false
  | a :: as, b :: bs => a == b && listPrefix as bs

/-- Boolean contiguous-subsequence test, used to state that an error
message carries (or fails to carry) a propagated field. -/
def containsSeq (pat : List Char) : List Char → Bool
  | [] => pat.isEmpty
  | s :: t => listPrefix pat (s :: t) || containsSeq pat t

/-- JS `s.startsWith(p)` rendered over character lists. -/
def jsStartsWith (s p : String) : Bool := listPrefix p.toList s.toList

/-- JS `s.substring(n)` (from index `n` to the end; shorter strings give `""`). -/
def jsSubstringFrom (s : String) (n : Nat) : String := String.mk (s.toList.drop n)

/-- The payload of one upstream call: what `callOpenRouter` receives. -/
structure UpstreamCall where
  prompt : String
  images : List String
  apiKey : String
deriving DecidableEq, Repr

/-- Outcome of a handler's request-normalization phase: either an error
response (a 4xx/5xx JSON document) sent without contacting upstream, or an
upstream call with the extracted data. -/
inductive NormalizeOutcome where
  | reject (status : Nat) (message : String)
  | callUpstream (call : UpstreamCall)
deriving DecidableEq, Repr

/- ------------------------------------------------------------------
   OpenAI-style request shape (/v1/chat/completions, src/main.ts:217-309)
   ------------------------------------------------------------------ -/

/-- One element of an array-valued `message.content`.  `text` carries
`part.text` (absent field modelled as `""`); `image_url` carries
`part.image_url?.url` (absent/empty modelled as `""`); `otherPart` is any
part with another `type`. -/
inductive OPart where
  | text (s : String)
  | image_url (url : String)
  | otherPart
deriving DecidableEq, Repr

/-- `message.content`: either a plain string or an array of parts. -/
inductive ChatContent where
  | str (s : String)
  | arr (parts : List OPart)
deriving DecidableEq, Repr

structure ChatMessage where
  role : String
  content : Option ChatContent
deriving DecidableEq, Repr

structure ChatRequest where
  model : Option String
  messages : Option (List ChatMessage)
deriving DecidableEq, Repr

/-- The part-extraction loop of src/main.ts:227-232: a part of type
`text` overwrites the prompt (with whatever `part.text` holds), a part of
type `image_url` with a truthy url is appended to the image list. -/
def chatPartStep (acc : String × List String) (p : OPart) : String × List String :=
  match p with
  | .text s => (s, acc.2)
  | .image_url u => if u == "" then acc else (acc.1, acc.2 ++ [u])
  | .otherPart => acc

def extractParts (ps : List OPart) : String × List String :=
  ps.foldl chatPartStep ("", [])

/-- Prompt/image extraction from `userMessage.content`
(src/main.ts:226-232). -/
def extractChatContent (c : ChatContent) : String × List String :=
  match c with
  | .str s => (s, [])
  | .arr ps => extractParts ps

/-- JS truthiness of `userMessage.content`: absent or `""` is falsy; an
array (even empty) is truthy. -/
def chatContentTruthy (c : Option ChatContent) : Bool :=
  match c with
  | none => false
  | some (.str s) => !(s == "")
  | some (.arr _) => true

/-- `openaiRequest.model || 'gpt-4o'` (src/main.ts:224). -/
def requestedModel (model : Option String) : String :=
  match model with
  | some s => if s == "" then "gpt-4o" else s
  | none => "gpt-4o"

/-- Normalization phase of the /v1/chat/completions handler
(src/main.ts:219-235): bearer-auth check (401), user-message lookup and
content truthiness (400), prompt extraction, empty-prompt check (400). -/
def chatCompletionsNormalize (authHeader : Option String) (req : ChatRequest) :
    NormalizeOutcome :=
  match authHeader with
  | none => .reject 401 "Authorization header is missing or invalid."
  | some a =>
    if jsStartsWith a "Bearer " then
      let openrouterApiKey := jsSubstringFrom a 7
      match (req.messages.getD []).find? (fun m => m.role == "user") with
      | none => .reject 400 "Invalid request: No user message found."
      | some userMessage =>
        if chatContentTruthy userMessage.content then
          let e := extractChatContent (userMessage.content.getD (.str ""))
          if e.1 == "" then .reject 400 "Invalid request: Prompt text is missing."
          else .callUpstream ⟨e.1, e.2, openrouterApiKey⟩
        else .reject 400 "Invalid request: No user message found."
    else .reject 401 "Authorization header is missing or invalid."

/- ------------------------------------------------------------------
   Gemini-style request shape (:streamGenerateContent, src/main.ts:53-137)
   ------------------------------------------------------------------ -/

structure InlineData where
  mimeType : String
  data : String
deriving DecidableEq, Repr

/-- One Gemini request part.  The handler tests `part.text` and
`part.inlineData?.data` independently, so both fields coexist. -/
structure GPart where
  text : Option String
  inlineData : Option InlineData
deriving DecidableEq, Repr

structure GContent where
  role : String
  parts : Option (List GPart)
deriving DecidableEq, Repr

structure GeminiRequest where
  contents : Option (List GContent)
deriving DecidableEq, Repr

/-- The data-URL built from an inline image (src/main.ts:66). -/
def mkDataUrl (mimeType data : String) : String :=
  "data:" ++ mimeType ++ ";base64," ++ data

/-- The parts loop of src/main.ts:63-68: a truthy `part.text` overwrites
the prompt; a truthy `part.inlineData?.data` appends a data URL. -/
def geminiPartStep (acc : String × List String) (p : GPart) : String × List String :=
  let prompt := match p.text with
    | some t => if t == "" then acc.1 else t
    | none => acc.1
  let images := match p.inlineData with
    | some i => if i.data == "" then acc.2 else acc.2 ++ [mkDataUrl i.mimeType i.data]
    | none => acc.2
  (prompt, images)

def extractGeminiParts (ps : List GPart) : String × List String :=
  ps.foldl geminiPartStep ("", [])

/-- `authHeader?.substring(7) || req.headers.get("x-goog-api-key") || ""`
(src/main.ts:56-57). -/
def geminiApiKey (authHeader xGoogApiKey : Option String) : String :=
  let fromAuth := match authHeader with
    | some a => jsSubstringFrom a 7
    | none => ""
  if fromAuth == "" then xGoogApiKey.getD "" else fromAuth

/-- `geminiRequest.contents?.find(c => c.role === 'user')?.parts`
(the truthiness test `!userMessage?.parts` of src/main.ts:59-60). -/
def geminiUserParts (req : GeminiRequest) : Option (List GPart) :=
  ((req.contents.getD []).find? (fun c => c.role == "user")).bind (fun m => m.parts)

/-- Normalization phase of the :streamGenerateContent handler
(src/main.ts:55-70).  There is no credential check and no empty-prompt
check: the only rejection is the missing-user-parts 400. -/
def geminiNormalize (authHeader xGoogApiKey : Option String) (req : GeminiRequest) :
    NormalizeOutcome :=
  let apiKey := geminiApiKey authHeader xGoogApiKey
  match geminiUserParts req with
  | none => .reject 400 "Invalid Gemini request: No user parts found"
  | some parts =>
    let e := extractGeminiParts parts
    .callUpstream ⟨e.1, e.2, apiKey⟩

/- ------------------------------------------------------------------
   The /generate handler (src/main.ts:312-324)
   ------------------------------------------------------------------ -/

/-- Normalization phase of the /generate handler.  `apikey` is the body
field, `envKey` is `Deno.env.get("OPENROUTER_API_KEY")`; the fallback is
JS `apikey || env` and the failure is a 500, before any other check. -/
def generateNormalize (apikey envKey promptField : Option String)
    (imagesField : Option (List String)) : NormalizeOutcome :=
  let fromBody := apikey.getD ""
  let openrouterApiKey := if fromBody == "" then envKey.getD "" else fromBody
  if openrouterApiKey == "" then .reject 500 "OpenRouter API key is not set."
  else
    let prompt := promptField.getD ""
    if prompt == "" then .reject 400 "Prompt and images are required."
    else
      match imagesField with
      | none => .reject 400 "Prompt and images are required."
      | some images =>
        if images.length == 0 then .reject 400 "Prompt and images are required."
        else .callUpstream ⟨prompt, images, openrouterApiKey⟩

/- ------------------------------------------------------------------
   callOpenRouter: upstream payload, error propagation, result extraction
   ------------------------------------------------------------------ -/

/-- One element of the content array sent to OpenRouter. -/
inductive ORContent where
  | text (s : String)
  | image_url (u : String)
deriving DecidableEq, Repr

/-- The request payload sent to OpenRouter (model and the single user
message's content array). -/
structure ORPayload where
  model : String
  content : List ORContent
deriving DecidableEq, Repr

/-- Payload built by the Gemini-path `callOpenRouter` (src/main.ts:16-24):
text part first, then one `image_url` part per image; no annotation. -/
def buildOpenRouterPayloadGemini (prompt : String) (images : List String) : ORPayload :=
  ⟨"google/gemini-2.5-flash-image-preview:free",
    .text prompt :: images.map .image_url⟩

/-- The annotation string of src/main.ts:169. -/
def annotatePrompt (prompt : String) (n : Nat) : String :=
  "根据我上传的这 " ++ toString n ++ " 张图片，" ++ prompt

/-- Payload built by the chat-path `callOpenRouter` (src/main.ts:162-176):
when at least one image is present and the text is truthy, the text part
is rewritten to the annotated prompt. -/
def buildOpenRouterPayloadChat (prompt : String) (images : List String) : ORPayload :=
  let text :=
    if images.length > 0 && !(prompt == "") then annotatePrompt prompt images.length
    else prompt
  ⟨"google/gemini-2.5-flash-image-preview:free",
    .text text :: images.map .image_url⟩

def payloadFirstText (p : ORPayload) : String :=
  match p.content with
  | .text s :: _ => s
  | _ => ""

/-- The upstream payload produced by the whole /v1/chat/completions
normalization, when upstream is contacted at all. -/
def chatUpstreamPayload (authHeader : Option String) (req : ChatRequest) :
    Option ORPayload :=
  match chatCompletionsNormalize authHeader req with
  | .callUpstream c => some (buildOpenRouterPayloadChat c.prompt c.images)
  | .reject _ _ => none

/-- `responseData.choices?.[0]?.message` as far as the extraction code
reads it: the content string (absent/null as `none`) and the `images`
array, each entry holding `image_url?.url` when present. -/
structure UpMessage where
  content : Option String
  images : List (Option String)
deriving DecidableEq, Repr

/-- `message.images?.[0]?.image_url?.url`, `none` when falsy. -/
def firstImageUrl (m : UpMessage) : Option String :=
  match m.images.head? with
  | some (some u) => if u == "" then none else some u
  | _ => none

/-- Result extraction of the main.ts `callOpenRouter` (src/main.ts:36-41):
the content string is tested first for an inline base64 image, the
non-standard `images` field second, and a missing image throws — there is
no plain-text fallback. -/
def extractImageUrlMain (msg : Option UpMessage) : Except String String :=
  match msg with
  | none => .error "Could not extract a valid image URL from the OpenRouter API response."
  | some m =>
    match m.content with
    | some c =>
      if jsStartsWith c "data:image/" then .ok c
      else
        match firstImageUrl m with
        | some u => .ok u
        | none => .error "Could not extract a valid image URL from the OpenRouter API response."
    | none =>
      match firstImageUrl m with
      | some u => .ok u
      | none => .error "Could not extract a valid image URL from the OpenRouter API response."

/-- The two result kinds of the part_002 `callOpenRouter`. -/
inductive UpstreamResult where
  | image (content : String)
  | text (content : String)
deriving DecidableEq, Repr

/-- Result extraction of the part_002 `callOpenRouter`
(src/unnamed/part_002:36-53): `images` field first, then an inline base64
content string, then plain text, then an error. -/
def extractResultPart002 (msg : Option UpMessage) : Except String UpstreamResult :=
  match msg with
  | none => .error "Could not extract a valid image OR text content from the OpenRouter API response."
  | some m =>
    match firstImageUrl m with
    | some u => .ok (.image u)
    | none =>
      match m.content with
      | some c =>
        if jsStartsWith c "data:image/" then .ok (.image c) else .ok (.text c)
      | none => .error "Could not extract a valid image OR text content from the OpenRouter API response."

/-- Non-success error message of the main.ts `callOpenRouter`
(src/main.ts:32): propagates the upstream status text and body. -/
def openRouterErrorMain (statusText body : String) : String :=
  "OpenRouter API error: " ++ statusText ++ " - " ++ body

/-- Non-success error message of the part_001 `callOpenRouter`
(src/unnamed/part_001:32): the status text is replaced by the literal
`Unauthorized`; only the body is propagated. -/
def openRouterErrorPart001 (body : String) : String :=
  "OpenRouter API error: Unauthorized - " ++ body

/-- The upstream HTTP reply as the callers read it. -/
structure UpReply where
  ok : Bool
  statusText : String
  body : String
  message : Option UpMessage
deriving DecidableEq, Repr

/-- The main.ts `callOpenRouter` after the fetch (src/main.ts:30-41):
non-success status throws with status text and body, success extracts the
image URL. -/
def callOpenRouterMain (r : UpReply) : Except String String :=
  if r.ok then extractImageUrlMain r.message
  else .error (openRouterErrorMain r.statusText r.body)

/-- The part_001 `callOpenRouter` after the fetch
(src/unnamed/part_001:30-41): same extraction as main.ts, but the
non-success error hardcodes `Unauthorized`. -/
def callOpenRouterPart001 (r : UpReply) : Except String String :=
  if r.ok then extractImageUrlMain r.message
  else .error (openRouterErrorPart001 r.body)

/-- The part_002 `callOpenRouter` after the fetch
(src/unnamed/part_002:29-53). -/
def callOpenRouterPart002 (r : UpReply) : Except String UpstreamResult :=
  if r.ok then extractResultPart002 r.message
  else .error (openRouterErrorPart001 r.body)

/- ------------------------------------------------------------------
   The data-URL regex /^data:(.+);base64,(.*)$/ (src/main.ts:73)
   ------------------------------------------------------------------ -/

def dataColon : List Char := ['d', 'a', 't', 'a', ':']

def sepB64 : List Char := [';', 'b', 'a', 's', 'e', '6', '4', ',']

/-- Splits `s` at the last occurrence of `;base64,`: the greedy `(.+)`
backtracks from the end, so the matched separator is the last one. -/
def splitGreedy : List Char → Option (List Char × List Char)
  | [] => none
  | c :: rest =>
    match splitGreedy rest with
    | some (m, d) => some (c :: m, d)
    | none => if listPrefix sepB64 (c :: rest) then some ([], (c :: rest).drop 8) else none

/-- The regex `/^data:(.+);base64,(.*)$/`: a mandatory `data:` prefix,
a non-empty first group (hence the first character after `data:` always
belongs to it), the last `;base64,`, and the remainder. -/
def matchDataUrl (s : List Char) : Option (List Char × List Char) :=
  if listPrefix dataColon s then
    match s.drop 5 with
    | [] => none
    | c :: rest => (splitGreedy rest).map (fun p => (c :: p.1, p.2))
  else none

/-- `newImageBase64.match(...)` with the mimeType/base64Data destructuring
of src/main.ts:73-76. -/
def parseDataUrl (s : String) : Option (String × String) :=
  (matchDataUrl s.toList).map (fun p => (String.mk p.1, String.mk p.2))

/- ------------------------------------------------------------------
   Streaming response chunks
   ------------------------------------------------------------------ -/

/-- Chunks of the Gemini stream (src/main.ts:89-123): one inlineData
part chunk, then the finishReason-STOP chunk with its usageMetadata
token counts. -/
inductive GChunk where
  | imagePart (mimeType data : String)
  | finishStop (promptTokenCount totalTokenCount : Nat)
deriving DecidableEq, Repr

/-- The chunk sequence the :streamGenerateContent handler enqueues before
closing the controller (src/main.ts:107-123). -/
def geminiStreamChunks (mimeType data : String) : List GChunk :=
  [.imagePart mimeType data, .finishStop 50 800]

/-- Response phase of the :streamGenerateContent handler
(src/main.ts:73-126): split the upstream data URL, else throw; on
success emit the image chunk and the finish chunk. -/
def geminiRespond (newImageBase64 : String) : Except String (List GChunk) :=
  match parseDataUrl newImageBase64 with
  | none => .error "Generated content is not a valid Base64 URL"
  | some (mimeType, base64Data) => .ok (geminiStreamChunks mimeType base64Data)

/-- Chunks of the /v1/chat/completions SSE stream (src/main.ts:251-291).
Every data chunk carries the echoed model name; `done` is the
`data: [DONE]` sentinel. -/
inductive OChunk where
  | roleChunk (model : String)
  | imageChunk (model url : String)
  | finishChunk (model : String)
  | usageChunk (model : String) (promptTokens completionTokens totalTokens : Nat)
  | done
deriving DecidableEq, Repr

/-- The chunk sequence the /v1/chat/completions handler enqueues before
closing the controller (src/main.ts:251-293). -/
def chatStreamChunks (model fullBase64Url : String) : List OChunk :=
  [.roleChunk model, .imageChunk model fullBase64Url, .finishChunk model,
   .usageChunk model 50 700 750, .done]

/-- One event on the push channel: a chunk write, or closing the channel. -/
inductive StreamEv (α : Type) where
  | write (chunk : α)
  | close
deriving DecidableEq, Repr

/-- Both stream bodies are straight-line: they enqueue their chunks in
order and then close the controller, so the trace is the writes followed
by a single close. -/
def emitTrace {α : Type} (chunks : List α) : List (StreamEv α) :=
  chunks.map .write ++ [.close]

def chatStreamTrace (model fullBase64Url : String) : List (StreamEv OChunk) :=
  emitTrace (chatStreamChunks model fullBase64Url)

def geminiStreamTrace (mimeType data : String) : List (StreamEv GChunk) :=
  emitTrace (geminiStreamChunks mimeType data)

/- ==================================================================
   Helper lemmas
   ================================================================== -/

theorem listPrefix_append_self : ∀ (p r : List Char), listPrefix p (p ++ r) = true
  | [], _ => rfl
  | c :: p', r => by simp [listPrefix, listPrefix_append_self p' r]

theorem listPrefix_sep_head (c : Char) (rest : List Char)
    (h : listPrefix sepB64 (c :: rest) = true) : c = ';' := by
  simp [sepB64, listPrefix, Bool.and_eq_true] at h
  exact h.1.symm

theorem splitGreedy_cons (c : Char) (rest : List Char) :
    splitGreedy (c :: rest) =
      match splitGreedy rest with
      | some (m, d) => some (c :: m, d)
      | none => if listPrefix sepB64 (c :: rest) then some ([], (c :: rest).drop 8) else none :=
  rfl

theorem splitGreedy_eq_none (s : List Char) (h : ∀ c ∈ s, c ≠ ';') :
    splitGreedy s = none := by
  induction s with
  | nil => rfl
  | cons c rest ih =>
    have hrest : splitGreedy rest = none :=
      ih (fun x hx => h x (List.mem_cons_of_mem c hx))
    have hpre : listPrefix sepB64 (c :: rest) = false := by
      cases hp : listPrefix sepB64 (c :: rest) with
      | false => rfl
      | true => exact absurd (listPrefix_sep_head c rest hp) (h c (List.mem_cons_self c rest))
    simp [splitGreedy, hrest, hpre]

theorem splitGreedy_sep_append (d : List Char) (hd : ∀ c ∈ d, c ≠ ';') :
    splitGreedy (sepB64 ++ d) = some ([], d) := by
  have h1 : splitGreedy (['b', 'a', 's', 'e', '6', '4', ','] ++ d) = none := by
    apply splitGreedy_eq_none
    intro c hc he
    subst he
    rcases List.mem_append.mp hc with h | h
    · exact absurd h (by decide)
    · exact hd ';' h rfl
  have hpre : listPrefix sepB64 (';' :: (['b', 'a', 's', 'e', '6', '4', ','] ++ d)) = true :=
    listPrefix_append_self sepB64 d
  show splitGreedy (';' :: (['b', 'a', 's', 'e', '6', '4', ','] ++ d)) = some ([], d)
  rw [splitGreedy_cons, h1]
  simp
  simpa using hpre

theorem splitGreedy_mid (m d : List Char) (hm : ∀ c ∈ m, c ≠ ';')
    (hd : ∀ c ∈ d, c ≠ ';') : splitGreedy (m ++ sepB64 ++ d) = some (m, d) := by
  induction m with
  | nil => simpa using splitGreedy_sep_append d hd
  | cons c m' ih =>
    have hih := ih (fun x hx => hm x (List.mem_cons_of_mem c hx))
    show splitGreedy (c :: (m' ++ sepB64 ++ d)) = some (c :: m', d)
    rw [splitGreedy_cons, hih]

theorem matchDataUrl_roundtrip (m d : List Char) (hne : m ≠ [])
    (hm : ∀ c ∈ m, c ≠ ';') (hd : ∀ c ∈ d, c ≠ ';') :
    matchDataUrl (dataColon ++ (m ++ sepB64 ++ d)) = some (m, d) := by
  cases m with
  | nil => exact absurd rfl hne
  | cons c m' =>
    have hsplit := splitGreedy_mid m' d (fun x hx => hm x (List.mem_cons_of_mem c hx)) hd
    have hpre : listPrefix dataColon (dataColon ++ ((c :: m') ++ sepB64 ++ d)) = true :=
      listPrefix_append_self _ _
    have hdrop : (dataColon ++ ((c :: m') ++ sepB64 ++ d)).drop 5 = (c :: m') ++ sepB64 ++ d := by
      simp [dataColon]
    simp only [matchDataUrl, hpre, if_true, hdrop]
    show ((splitGreedy (m' ++ sepB64 ++ d)).map fun p => (c :: p.1, p.2)) = some (c :: m', d)
    rw [hsplit]
    rfl

theorem toList_ne_nil_of_ne_empty (s : String) (h : s ≠ "") : s.toList ≠ [] := by
  intro hh
  apply h
  cases s with
  | mk data =>
    have hd : data = [] := hh
    subst hd
    rfl

theorem mkDataUrl_toList (m d : String) :
    (mkDataUrl m d).toList = dataColon ++ (m.toList ++ sepB64 ++ d.toList) := by
  simp [mkDataUrl, String.toList, String.data_append, dataColon, sepB64]

theorem containsSeq_nil_pat : ∀ (s : List Char), containsSeq [] s = true
  | [] => rfl
  | _ :: t => by simp [containsSeq, listPrefix, containsSeq_nil_pat t]

theorem containsSeq_append_self (p l r : List Char) :
    containsSeq p (l ++ (p ++ r)) = true := by
  induction l with
  | nil =>
    cases p with
    | nil => simpa using containsSeq_nil_pat r
    | cons a as =>
      show containsSeq (a :: as) (a :: (as ++ r)) = true
      simp only [containsSeq, Bool.or_eq_true]
      left
      have := listPrefix_append_self (a :: as) r
      simpa using this
  | cons x l' ih =>
    show containsSeq p (x :: (l' ++ (p ++ r))) = true
    cases hp : p with
    | nil => exact containsSeq_nil_pat _
    | cons a as =>
      simp only [containsSeq, Bool.or_eq_true]
      right
      rw [hp] at ih
      simpa using ih

theorem containsSeq_append_right (p l : List Char) : containsSeq p (l ++ p) = true := by
  simpa using containsSeq_append_self p l []

/- ==================================================================
   Claim theorems
   ================================================================== -/

/-- C5 (confirmed): for every inline base64 image data URL built from a
MIME type `m` and a base64 payload `d` (a MIME type contains no `;` and
is non-empty; the base64 alphabet contains no `;`), the handler's split
of `data:m;base64,d` by the regex of src/main.ts:73 recovers exactly `m`
and `d`, and the re-emitted inlineData chunk carries exactly that MIME
type and that base64 data: the round trip is the identity. -/
theorem c5_data_url_roundtrip (m d : String) (h1 : m ≠ "")
    (h2 : ';' ∉ m.toList) (h3 : ';' ∉ d.toList) :
    parseDataUrl (mkDataUrl m d) = some (m, d) ∧
    geminiRespond (mkDataUrl m d) =
      .ok [GChunk.imagePart m d, GChunk.finishStop 50 800] := by
  have hm : ∀ c ∈ m.toList, c ≠ ';' := fun c hc he => h2 (he ▸ hc)
  have hd : ∀ c ∈ d.toList, c ≠ ';' := fun c hc he => h3 (he ▸ hc)
  have hne : m.toList ≠ [] := toList_ne_nil_of_ne_empty m h1
  have hmatch : matchDataUrl ((mkDataUrl m d).toList) = some (m.toList, d.toList) := by
    rw [mkDataUrl_toList]
    exact matchDataUrl_roundtrip m.toList d.toList hne hm hd
  have hparse : parseDataUrl (mkDataUrl m d) = some (m, d) := by
    unfold parseDataUrl
    rw [hmatch]
    rfl
  refine ⟨hparse, ?_⟩
  simp [geminiRespond, hparse, geminiStreamChunks]

theorem c5_data_url_roundtrip_witness :
    ("image/png" : String) ≠ "" ∧ ';' ∉ ("image/png" : String).toList ∧
    ';' ∉ ("Zm9v" : String).toList ∧
    (parseDataUrl (mkDataUrl "image/png" "Zm9v") = some ("image/png", "Zm9v") ∧
      geminiRespond (mkDataUrl "image/png" "Zm9v") =
        .ok [GChunk.imagePart "image/png" "Zm9v", GChunk.finishStop 50 800]) :=
  ⟨by decide, by decide, by decide,
    c5_data_url_roundtrip "image/png" "Zm9v" (by decide) (by decide) (by decide)⟩

/-- C6 (confirmed): in streaming mode, for every successful upstream
result both handlers emit a bounded, ordered chunk sequence whose last
chunk is the protocol's terminal sentinel (the `data: [DONE]` chunk for
the /v1/chat/completions SSE stream, src/main.ts:289; the
finishReason-STOP chunk for the :streamGenerateContent stream,
src/main.ts:111-120), and the channel trace is exactly those writes
followed by a single close, so nothing is written after the sentinel. -/
theorem c6_stream_bounded_ordered_sentinel (model url mimeType data : String) :
    chatStreamTrace model url =
      (chatStreamChunks model url).map StreamEv.write ++ [StreamEv.close] ∧
    (chatStreamChunks model url).length = 5 ∧
    (chatStreamChunks model url).getLast? = some OChunk.done ∧
    geminiStreamTrace mimeType data =
      (geminiStreamChunks mimeType data).map StreamEv.write ++ [StreamEv.close] ∧
    (geminiStreamChunks mimeType data).length = 2 ∧
    (geminiStreamChunks mimeType data).getLast? = some (GChunk.finishStop 50 800) :=
  ⟨rfl, rfl, rfl, rfl, rfl, rfl⟩

/-- C1 (counterexample): a Gemini request whose user parts hold only an
inline image — so the extracted prompt text is empty — is not rejected
with a 400 by the :streamGenerateContent handler: normalization produces
an upstream call (with the empty prompt), i.e. the upstream generation
API is contacted. -/
theorem c1_counterexample_empty_prompt_forwarded :
    geminiNormalize none (some "gk")
        ⟨some [⟨"user", some [⟨none, some ⟨"image/png", "Zm9v"⟩⟩]⟩]⟩ =
      .callUpstream ⟨"", ["data:image/png;base64,Zm9v"], "gk"⟩ := by
  decide

/-- C1 (amended): the /v1/chat/completions handler never contacts
upstream with a missing or empty prompt — every normalization that
reaches the upstream call has a non-empty prompt, and whenever a request
passes the auth and user-message checks but its extracted prompt is
empty, the handler returns exactly the 400 prompt-missing error — but
the :streamGenerateContent handler only validates the presence of user
parts: it rejects exactly the requests whose user message or parts array
is missing, and otherwise contacts upstream even when the extracted
prompt is empty. -/
theorem c1_amended_prompt_validation :
    (∀ (a : Option String) (req : ChatRequest) (c : UpstreamCall),
        chatCompletionsNormalize a req = .callUpstream c → c.prompt ≠ "") ∧
    (∀ (ah xg : Option String) (req : GeminiRequest) (s : Nat) (msg : String),
        geminiNormalize ah xg req = .reject s msg → geminiUserParts req = none) ∧
    (∀ (ah xg : Option String) (req : GeminiRequest),
        geminiUserParts req = none →
          geminiNormalize ah xg req =
            .reject 400 "Invalid Gemini request: No user parts found") ∧
    (∀ (a : String) (req : ChatRequest) (um : ChatMessage),
        jsStartsWith a "Bearer " = true →
        (req.messages.getD []).find? (fun m => m.role == "user") = some um →
        chatContentTruthy um.content = true →
        (extractChatContent (um.content.getD (.str ""))).1 = "" →
        chatCompletionsNormalize (some a) req =
          .reject 400 "Invalid request: Prompt text is missing.") := by
  refine ⟨?_, ?_, ?_, ?_⟩
  · intro a req c h
    cases a with
    | none => simp [chatCompletionsNormalize] at h
    | some s =>
      simp only [chatCompletionsNormalize] at h
      split at h
      · split at h
        · simp at h
        · split at h
          · split at h
            · simp at h
            · simp only [NormalizeOutcome.callUpstream.injEq] at h
              subst h
              rename_i hguard
              simp only [beq_iff_eq] at hguard
              exact hguard
          · simp at h
      · simp at h
  · intro ah xg req s msg h
    simp only [geminiNormalize] at h
    split at h
    · assumption
    · simp at h
  · intro ah xg req h
    simp [geminiNormalize, h]
  · intro a req um h1 h2 h3 h4
    simp [chatCompletionsNormalize, h1, h2, h3, h4]

theorem c1_amended_prompt_validation_witness :
    ("hi there" : String) ≠ "" ∧
    geminiUserParts (⟨none⟩ : GeminiRequest) = none ∧
    geminiNormalize none none ⟨none⟩ =
      .reject 400 "Invalid Gemini request: No user parts found" ∧
    chatCompletionsNormalize (some "Bearer k2")
        ⟨none, some [⟨"user", some (.arr [.image_url "data:image/png;base64,QQ"])⟩]⟩ =
      .reject 400 "Invalid request: Prompt text is missing." :=
  ⟨c1_amended_prompt_validation.1 (some "Bearer k1")
      ⟨none, some [⟨"user", some (.str "hi there")⟩]⟩ ⟨"hi there", [], "k1"⟩ (by decide),
    c1_amended_prompt_validation.2.1 none none ⟨none⟩ 400
      "Invalid Gemini request: No user parts found" (by decide),
    c1_amended_prompt_validation.2.2.1 none none ⟨none⟩ (by decide),
    c1_amended_prompt_validation.2.2.2 "Bearer k2"
      ⟨none, some [⟨"user", some (.arr [.image_url "data:image/png;base64,QQ"])⟩]⟩
      ⟨"user", some (.arr [.image_url "data:image/png;base64,QQ"])⟩
      (by decide) (by decide) (by decide) (by decide)⟩

/-- C2 (counterexample): a Gemini request carrying no bearer
Authorization header and no x-goog-api-key header is not answered with a
401 by the :streamGenerateContent handler: normalization produces an
upstream call with the empty API key, i.e. the upstream generation API
is contacted. -/
theorem c2_counterexample_no_credentials_forwarded :
    geminiNormalize none none ⟨some [⟨"user", some [⟨some "hi", none⟩]⟩]⟩ =
      .callUpstream ⟨"hi", [], ""⟩ := by
  decide

/-- C2 (amended): the /v1/chat/completions handler returns the 401 error
without contacting upstream whenever the Authorization header is absent
or does not start with `Bearer `; the :streamGenerateContent handler has
no credential check at all: with both headers absent, any request it
accepts is forwarded upstream with the empty API key. -/
theorem c2_amended_credential_check :
    (∀ (req : ChatRequest),
        chatCompletionsNormalize none req =
          .reject 401 "Authorization header is missing or invalid.") ∧
    (∀ (a : String) (req : ChatRequest), jsStartsWith a "Bearer " = false →
        chatCompletionsNormalize (some a) req =
          .reject 401 "Authorization header is missing or invalid.") ∧
    (∀ (req : GeminiRequest) (c : UpstreamCall),
        geminiNormalize none none req = .callUpstream c → c.apiKey = "") := by
  refine ⟨fun req => rfl, ?_, ?_⟩
  · intro a req h
    simp [chatCompletionsNormalize, h]
  · intro req c h
    simp only [geminiNormalize] at h
    split at h
    · simp at h
    · simp only [NormalizeOutcome.callUpstream.injEq] at h
      subst h
      rfl

theorem c2_amended_credential_check_witness :
    jsStartsWith "Basic xyz" "Bearer " = false ∧
    chatCompletionsNormalize (some "Basic xyz") ⟨none, none⟩ =
      .reject 401 "Authorization header is missing or invalid." ∧
    (UpstreamCall.mk "hello" [] "").apiKey = "" :=
  ⟨by decide,
    c2_amended_credential_check.2.1 "Basic xyz" ⟨none, none⟩ (by decide),
    c2_amended_credential_check.2.2 ⟨some [⟨"user", some [⟨some "hello", none⟩]⟩]⟩
      ⟨"hello", [], ""⟩ (by decide)⟩

/-- C3 (counterexample): on an upstream message carrying both a
non-standard `images` entry and a content string that is itself an inline
base64 image (with a different URL), the main.ts extractor returns the
content string — so the `images` field is not checked first there — and
on a plain-text content the main.ts extractor throws instead of treating
it as plain text; the part_002 extractor, by contrast, does pick the
`images` entry first. -/
theorem c3_counterexample_extraction_order :
    extractImageUrlMain
        (some ⟨some "data:image/png;base64,AAA", [some "data:image/jpeg;base64,BBB"]⟩) =
      .ok "data:image/png;base64,AAA" ∧
    extractResultPart002
        (some ⟨some "data:image/png;base64,AAA", [some "data:image/jpeg;base64,BBB"]⟩) =
      .ok (.image "data:image/jpeg;base64,BBB") ∧
    ("data:image/png;base64,AAA" : String) ≠ "data:image/jpeg;base64,BBB" ∧
    extractImageUrlMain (some ⟨some "This is plain text", []⟩) =
      .error "Could not extract a valid image URL from the OpenRouter API response." :=
  ⟨rfl, rfl, by decide, rfl⟩

/-- C3 (amended): the claimed order — images field first, then inline
base64 content, then plain text — is the order of the part_002
`callOpenRouter`; the main.ts `callOpenRouter` instead checks the content
string first, then the `images` field, and fails when neither yields an
image (it has no plain-text fallback). -/
theorem c3_amended_extraction_order :
    (∀ (m : UpMessage) (u : String), firstImageUrl m = some u →
        extractResultPart002 (some m) = .ok (.image u)) ∧
    (∀ (m : UpMessage) (c : String), firstImageUrl m = none → m.content = some c →
        jsStartsWith c "data:image/" = true →
        extractResultPart002 (some m) = .ok (.image c)) ∧
    (∀ (m : UpMessage) (c : String), firstImageUrl m = none → m.content = some c →
        jsStartsWith c "data:image/" = false →
        extractResultPart002 (some m) = .ok (.text c)) ∧
    (∀ (m : UpMessage) (c : String), m.content = some c →
        jsStartsWith c "data:image/" = true →
        extractImageUrlMain (some m) = .ok c) ∧
    (∀ (m : UpMessage) (c : String), m.content = some c →
        jsStartsWith c "data:image/" = false → firstImageUrl m = none →
        extractImageUrlMain (some m) =
          .error "Could not extract a valid image URL from the OpenRouter API response.") ∧
    (∀ (m : UpMessage) (c u : String), m.content = some c →
        jsStartsWith c "data:image/" = false → firstImageUrl m = some u →
        extractImageUrlMain (some m) = .ok u) ∧
    (∀ (m : UpMessage) (u : String), m.content = none → firstImageUrl m = some u →
        extractImageUrlMain (some m) = .ok u) := by
  refine ⟨?_, ?_, ?_, ?_, ?_, ?_, ?_⟩
  · intro m u h
    simp [extractResultPart002, h]
  · intro m c h1 h2 h3
    simp [extractResultPart002, h1, h2, h3]
  · intro m c h1 h2 h3
    simp [extractResultPart002, h1, h2, h3]
  · intro m c h1 h2
    simp [extractImageUrlMain, h1, h2]
  · intro m c h1 h2 h3
    simp [extractImageUrlMain, h1, h2, h3]
  · intro m c u h1 h2 h3
    simp [extractImageUrlMain, h1, h2, h3]
  · intro m u h1 h2
    simp [extractImageUrlMain, h1, h2]

theorem c3_amended_extraction_order_witness :
    firstImageUrl ⟨some "some text", [some "u1"]⟩ = some "u1" ∧
    extractResultPart002 (some ⟨some "some text", [some "u1"]⟩) = .ok (.image "u1") ∧
    extractResultPart002 (some ⟨some "data:image/gif;base64,R0", []⟩) =
      .ok (.image "data:image/gif;base64,R0") ∧
    extractResultPart002 (some ⟨some "just words", []⟩) = .ok (.text "just words") ∧
    extractImageUrlMain (some ⟨some "data:image/webp;base64,UklG", [some "other"]⟩) =
      .ok "data:image/webp;base64,UklG" ∧
    extractImageUrlMain (some ⟨some "nothing here", []⟩) =
      .error "Could not extract a valid image URL from the OpenRouter API response." ∧
    extractImageUrlMain (some ⟨some "plain words", [some "data:image/jpeg;base64,CCC"]⟩) =
      .ok "data:image/jpeg;base64,CCC" ∧
    extractImageUrlMain (some ⟨none, [some "u9"]⟩) = .ok "u9" :=
  ⟨by decide,
    c3_amended_extraction_order.1 ⟨some "some text", [some "u1"]⟩ "u1" (by decide),
    c3_amended_extraction_order.2.1 ⟨some "data:image/gif;base64,R0", []⟩
      "data:image/gif;base64,R0" (by decide) (by decide) (by decide),
    c3_amended_extraction_order.2.2.1 ⟨some "just words", []⟩ "just words"
      (by decide) (by decide) (by decide),
    c3_amended_extraction_order.2.2.2.1 ⟨some "data:image/webp;base64,UklG", [some "other"]⟩
      "data:image/webp;base64,UklG" (by decide) (by decide),
    c3_amended_extraction_order.2.2.2.2.1 ⟨some "nothing here", []⟩ "nothing here"
      (by decide) (by decide) (by decide),
    c3_amended_extraction_order.2.2.2.2.2.1
      ⟨some "plain words", [some "data:image/jpeg;base64,CCC"]⟩ "plain words"
      "data:image/jpeg;base64,CCC" (by decide) (by decide) (by decide),
    c3_amended_extraction_order.2.2.2.2.2.2 ⟨none, [some "u9"]⟩ "u9"
      (by decide) (by decide)⟩

/-- C4 (counterexample): in the part_001 `callOpenRouter` the non-success
error message hardcodes `Unauthorized`: for an upstream reply whose
status text is `Internal Server Error`, the raised error does not contain
the upstream status text at all, so the status text is not propagated
there. -/
theorem c4_counterexample_status_text_dropped :
    callOpenRouterPart001 ⟨false, "Internal Server Error", "quota exceeded", none⟩ =
      .error "OpenRouter API error: Unauthorized - quota exceeded" ∧
    containsSeq ("Internal Server Error" : String).toList
        ("OpenRouter API error: Unauthorized - quota exceeded" : String).toList = false :=
  ⟨rfl, by decide⟩

/-- C4 (amended): on every non-success upstream status, the main.ts
`callOpenRouter` fails with an error containing both the upstream status
text and the upstream body; the part_001/part_002 variants fail with an
error that contains the body but replaces the status text with the fixed
word `Unauthorized`. -/
theorem c4_amended_error_propagation :
    (∀ (r : UpReply), r.ok = false →
        callOpenRouterMain r = .error (openRouterErrorMain r.statusText r.body)) ∧
    (∀ (st body : String),
        containsSeq st.toList (openRouterErrorMain st body).toList = true ∧
        containsSeq body.toList (openRouterErrorMain st body).toList = true) ∧
    (∀ (r : UpReply), r.ok = false →
        callOpenRouterPart001 r = .error (openRouterErrorPart001 r.body) ∧
        callOpenRouterPart002 r = .error (openRouterErrorPart001 r.body)) ∧
    (∀ (body : String),
        containsSeq body.toList (openRouterErrorPart001 body).toList = true) := by
  refine ⟨?_, ?_, ?_, ?_⟩
  · intro r h
    simp [callOpenRouterMain, h]
  · intro st body
    constructor
    · have hsplit : (openRouterErrorMain st body).toList =
          ("OpenRouter API error: " : String).toList ++
            (st.toList ++ ((" - " : String).toList ++ body.toList)) := by
        simp [openRouterErrorMain, String.toList, String.data_append]
      rw [hsplit]
      exact containsSeq_append_self st.toList _ _
    · have hsplit : (openRouterErrorMain st body).toList =
          (("OpenRouter API error: " ++ st ++ " - " : String).toList ++ body.toList) := by
        simp [openRouterErrorMain, String.toList, String.data_append]
      rw [hsplit]
      exact containsSeq_append_right body.toList _
  · intro r h
    constructor
    · simp [callOpenRouterPart001, h]
    · simp [callOpenRouterPart002, h]
  · intro body
    have hsplit : (openRouterErrorPart001 body).toList =
        (("OpenRouter API error: Unauthorized - " : String).toList ++ body.toList) := by
      simp [openRouterErrorPart001, String.toList, String.data_append]
    rw [hsplit]
    exact containsSeq_append_right body.toList _

theorem c4_amended_error_propagation_witness :
    callOpenRouterMain ⟨false, "Bad Gateway", "upstream busy", none⟩ =
      .error (openRouterErrorMain "Bad Gateway" "upstream busy") ∧
    (callOpenRouterPart001 ⟨false, "Bad Gateway", "upstream busy", none⟩ =
        .error (openRouterErrorPart001 "upstream busy") ∧
      callOpenRouterPart002 ⟨false, "Bad Gateway", "upstream busy", none⟩ =
        .error (openRouterErrorPart001 "upstream busy")) :=
  ⟨c4_amended_error_propagation.1 ⟨false, "Bad Gateway", "upstream busy", none⟩ (by decide),
    c4_amended_error_propagation.2.2.1 ⟨false, "Bad Gateway", "upstream busy", none⟩ (by decide)⟩

/-- C7 (counterexample): with exactly one image the chat-path
`callOpenRouter` already annotates the prompt with the image count
(the claim says zero or one image is forwarded unannotated), and with
multiple images the Gemini-path `callOpenRouter` forwards the prompt
unannotated (the claim says multiple images are annotated). -/
theorem c7_counterexample_annotation :
    payloadFirstText (buildOpenRouterPayloadChat "把它变成卡通" ["data:image/png;base64,AAAA"]) =
      annotatePrompt "把它变成卡通" 1 ∧
    payloadFirstText (buildOpenRouterPayloadChat "把它变成卡通" ["data:image/png;base64,AAAA"]) ≠
      "把它变成卡通" ∧
    payloadFirstText (buildOpenRouterPayloadGemini "merge these pictures" ["u1", "u2"]) =
      "merge these pictures" :=
  ⟨by decide, by decide, by decide⟩

/-- C7 (amended): the chat-path `callOpenRouter` annotates the forwarded
prompt with the image count exactly when at least one image is present
and the prompt is non-empty — so a single image is annotated too — while
the Gemini-path `callOpenRouter` never annotates the prompt. -/
theorem c7_amended_annotation_rule :
    (∀ (prompt : String) (images : List String),
        payloadFirstText (buildOpenRouterPayloadChat prompt images) =
          (if images.length > 0 && !(prompt == "") then annotatePrompt prompt images.length
            else prompt)) ∧
    (∀ (prompt : String) (images : List String),
        payloadFirstText (buildOpenRouterPayloadGemini prompt images) = prompt) :=
  ⟨fun _ _ => rfl, fun _ _ => rfl⟩

/-- C8 (confirmed): the /generate handler falls back to the
OPENROUTER_API_KEY environment value when the body omits (or empties) the
apikey field — the upstream call then carries the environment key — and
when neither source provides a key it rejects with the HTTP 500 JSON
error (not a 401) before any upstream call. -/
theorem c8_generate_key_fallback :
    (∀ (envKey : String) (p : Option String) (i : Option (List String)) (c : UpstreamCall),
        generateNormalize none (some envKey) p i = .callUpstream c → c.apiKey = envKey) ∧
    (∀ (envKey : String) (p : Option String) (i : Option (List String)) (c : UpstreamCall),
        generateNormalize (some "") (some envKey) p i = .callUpstream c → c.apiKey = envKey) ∧
    (∀ (p : Option String) (i : Option (List String)),
        generateNormalize none none p i = .reject 500 "OpenRouter API key is not set.") ∧
    (∀ (p : Option String) (i : Option (List String)),
        generateNormalize (some "") none p i =
          .reject 500 "OpenRouter API key is not set.") := by
  have key_of : ∀ (ak : Option String) (envKey : String) (p : Option String)
      (i : Option (List String)) (c : UpstreamCall), ak.getD "" = "" →
      generateNormalize ak (some envKey) p i = .callUpstream c → c.apiKey = envKey := by
    intro ak envKey p i c hak h
    simp only [generateNormalize, hak, beq_self_eq_true, if_true] at h
    split at h
    · simp at h
    · split at h
      · simp at h
      · split at h
        · simp at h
        · split at h
          · simp at h
          · simp only [NormalizeOutcome.callUpstream.injEq] at h
            subst h
            rfl
  refine ⟨fun envKey p i c h => key_of none envKey p i c rfl h,
    fun envKey p i c h => key_of (some "") envKey p i c rfl h, fun p i => rfl, fun p i => rfl⟩

theorem c8_generate_key_fallback_witness :
    (UpstreamCall.mk "a cat" ["data:image/png;base64,AA"] "envkey").apiKey = "envkey" ∧
    (UpstreamCall.mk "a dog" ["data:image/png;base64,BB"] "envkey2").apiKey = "envkey2" :=
  ⟨c8_generate_key_fallback.1 "envkey" (some "a cat") (some ["data:image/png;base64,AA"])
      ⟨"a cat", ["data:image/png;base64,AA"], "envkey"⟩ (by decide),
    c8_generate_key_fallback.2.1 "envkey2" (some "a dog") (some ["data:image/png;base64,BB"])
      ⟨"a dog", ["data:image/png;base64,BB"], "envkey2"⟩ (by decide)⟩

/-- C9 (counterexample): the two part loops do not follow the same
last-wins rule: given the parts text "first" then text "", the
chat-completions loop keeps the last text part (the empty one), while the
Gemini loop keeps "first" — its empty text part does not overwrite, so
the last text part is not kept there. -/
theorem c9_counterexample_last_wins_divergence :
    extractParts [.text "first", .text ""] = ("", []) ∧
    extractGeminiParts [⟨some "first", none⟩, ⟨some "", none⟩] = ("first", []) ∧
    ("first" : String) ≠ "" :=
  ⟨rfl, rfl, by decide⟩

/-- C9 (amended): in the chat-completions loop the last part of type
text overwrites the prompt unconditionally (even with empty text) and
non-text parts leave the prompt unchanged, so only the last text part
survives; in the Gemini loop only a part with non-empty text overwrites,
so the last non-empty text wins and empty or absent texts are ignored. -/
theorem c9_amended_last_wins :
    (∀ (ps : List OPart) (s : String), (extractParts (ps ++ [.text s])).1 = s) ∧
    (∀ (ps : List OPart) (u : String),
        (extractParts (ps ++ [.image_url u])).1 = (extractParts ps).1) ∧
    (∀ (ps : List GPart) (t : String) (i : Option InlineData), t ≠ "" →
        (extractGeminiParts (ps ++ [⟨some t, i⟩])).1 = t) ∧
    (∀ (ps : List GPart) (i : Option InlineData),
        (extractGeminiParts (ps ++ [⟨some "", i⟩])).1 = (extractGeminiParts ps).1) ∧
    (∀ (ps : List GPart) (i : Option InlineData),
        (extractGeminiParts (ps ++ [⟨none, i⟩])).1 = (extractGeminiParts ps).1) := by
  refine ⟨?_, ?_, ?_, ?_, ?_⟩
  · intro ps s
    simp [extractParts, List.foldl_append, chatPartStep]
  · intro ps u
    simp only [extractParts, List.foldl_append, List.foldl_cons, List.foldl_nil, chatPartStep]
    split <;> rfl
  · intro ps t i h
    have ht : (t == "") = false := by simpa using h
    simp [extractGeminiParts, List.foldl_append, geminiPartStep, ht]
  · intro ps i
    simp [extractGeminiParts, List.foldl_append, geminiPartStep]
  · intro ps i
    simp [extractGeminiParts, List.foldl_append, geminiPartStep]

theorem c9_amended_last_wins_witness :
    ("z" : String) ≠ "" ∧
    (extractGeminiParts ([⟨some "a", none⟩] ++ [⟨some "z", none⟩])).1 = "z" :=
  ⟨by decide, c9_amended_last_wins.2.2.1 [⟨some "a", none⟩] "z" none (by decide)⟩

/-- C10 (confirmed): every upstream payload built by either
`callOpenRouter` carries the constant model identifier
google/gemini-2.5-flash-image-preview:free regardless of the model named
in the inbound request, while the outbound stream chunks all echo the
caller-requested model (openaiRequest.model, defaulting to gpt-4o when
absent or empty) and the usage chunk carries the constant fabricated
numbers prompt_tokens 50, completion_tokens 700, total_tokens 750. -/
theorem c10_constant_model_and_usage :
    (∀ (a : Option String) (req : ChatRequest) (p : ORPayload),
        chatUpstreamPayload a req = some p →
          p.model = "google/gemini-2.5-flash-image-preview:free") ∧
    (∀ (prompt : String) (images : List String),
        (buildOpenRouterPayloadGemini prompt images).model =
          "google/gemini-2.5-flash-image-preview:free" ∧
        (buildOpenRouterPayloadChat prompt images).model =
          "google/gemini-2.5-flash-image-preview:free") ∧
    requestedModel none = "gpt-4o" ∧
    requestedModel (some "") = "gpt-4o" ∧
    (∀ (s : String), s ≠ "" → requestedModel (some s) = s) ∧
    (∀ (mo : Option String) (url : String),
        chatStreamChunks (requestedModel mo) url =
          [.roleChunk (requestedModel mo), .imageChunk (requestedModel mo) url,
            .finishChunk (requestedModel mo), .usageChunk (requestedModel mo) 50 700 750,
            .done]) := by
  refine ⟨?_, fun _ _ => ⟨rfl, rfl⟩, rfl, rfl, ?_, fun _ _ => rfl⟩
  · intro a req p h
    simp only [chatUpstreamPayload] at h
    split at h
    · simp only [Option.some.injEq] at h
      subst h
      rfl
    · simp at h
  · intro s h
    have hs : (s == "") = false := by simpa using h
    simp [requestedModel, hs]

theorem c10_constant_model_and_usage_witness :
    (buildOpenRouterPayloadChat "hi" []).model =
      "google/gemini-2.5-flash-image-preview:free" ∧
    requestedModel (some "claude-lookalike") = "claude-lookalike" :=
  ⟨c10_constant_model_and_usage.1 (some "Bearer zz")
      ⟨none, some [⟨"user", some (.str "hi")⟩]⟩ (buildOpenRouterPayloadChat "hi" [])
      (by decide),
    c10_constant_model_and_usage.2.2.2.2.1 "claude-lookalike" (by decide)⟩
